import Mathlib

/-!
Shallow embedding of `src/main.cpp` of the gpu-memory-allocator tool.

The program is modelled as a trace generator: each observable action of the
process (stream output, GLFW/GL calls, the GL buffer allocation, process
spawning, sleeping, signalling) becomes an `Event`.  `main` is embedded as a
function from the parsed CLI options (plus two booleans standing for the
environment-dependent outcomes of window creation and GLAD loading) to a
`MainResult`: a finite trace ending in an exit status, an uncaught exception,
or entry into the infinite oscillation loop together with the per-iteration
trace of that loop.

Machine arithmetic: `unsigned` is 32 bits, so `1024 * 1024 * mib_size`
(an `int * unsigned` product) is computed mod 2^32 before being widened to
`size_t`; this is made explicit in `gpu_mem_size_bytes`.
-/

/-- Observable actions of the process, in program order.  Each constructor
corresponds to one call or statement in `src/main.cpp`. -/
inductive Event where
  | stdoutLine (s : String)
  | stderrLine (s : String)
  | glfwInitCall
  | windowHint (hint : String) (value : String)
  | createWindow (width height : Nat) (title : String)
  | makeContextCurrent
  | gladLoadGLLoader
  | viewport (x y width height : Nat)
  | setFramebufferSizeCallback
  | genBuffers
  | bindBuffer
  | bufferData (num_bytes : Nat)
  | clearBufferData
  | glFinishCall
  | glfwTerminateCall
  | spawnChild (file : String) (argv : List String)
  | execFailed (file : String) (argv : List String)
  | sleepMs (ms : Nat)
  | sleepSec (sec : Nat)
  | killChild (sig : Nat)
deriving DecidableEq, Repr

/-- True exactly on the GL buffer-allocation call `glBufferData`. -/
def Event.isBufferData : Event → Bool
  | .bufferData _ => true
  | _ => false

/-- True exactly on a successful fork-plus-exec of a child process. -/
def Event.isSpawn : Event → Bool
  | .spawnChild _ _ => true
  | _ => false

/-- True exactly on output to the error stream. -/
def Event.isStderr : Event → Bool
  | .stderrLine _ => true
  | _ => false

/-- Process-level steps of an oscillation cycle: spawning a child, sleeping,
and signalling the child (stream output is not a process-level step). -/
def Event.isProcessStep : Event → Bool
  | .spawnChild _ _ => true
  | .sleepMs _ => true
  | .killChild _ => true
  | _ => false

/-- POSIX SIGTERM, the signal sent by `kill(child_pid, SIGTERM)`. -/
def SIGTERM : Nat := 15

/-- From `unsigned kChildBootWaitExtraMs = 300;` in `src/main.cpp`. -/
def kChildBootWaitExtraMs : Nat := 300

/-- Default of `-o, --oscillate-mib` (`default_value("0")` in `src/main.cpp`). -/
def default_oscillate_mib : Nat := 0

/-- Default of `-t, --oscillate-time-ms` (`default_value("500")`). -/
def default_oscillate_time_ms : Nat := 500

/-- `size_t gpu_mem_size_bytes = 1024 * 1024 * mib_size;` where `mib_size` is
`unsigned` (32 bits): the product `int * unsigned` is computed in 32-bit
unsigned arithmetic, i.e. mod 2^32, and then zero-extended to `size_t`. -/
def gpu_mem_size_bytes (mib_size : Nat) : Nat :=
  (1024 * 1024 * mib_size) % 2 ^ 32

/-- Events of `glfw_init` up to and including `glfwCreateWindow(800, 600, ...)`. -/
def glfw_window_events (window_name : String) : List Event :=
  [Event.glfwInitCall,
   Event.windowHint "GLFW_CONTEXT_VERSION_MAJOR" "3",
   Event.windowHint "GLFW_CONTEXT_VERSION_MINOR" "3",
   Event.windowHint "GLFW_OPENGL_PROFILE" "GLFW_OPENGL_CORE_PROFILE",
   Event.createWindow 800 600 window_name]

/-- Embedding of `glfw_init` from `src/main.cpp`.  `windowOk` is whether
`glfwCreateWindow` returns non-NULL, `gladOk` whether `gladLoadGLLoader`
succeeds.  On failure the function prints a message and calls `exit(1)`,
modelled as `Except.error` carrying the exit status and the trace so far;
on success it returns the trace of the calls performed. -/
def glfw_init (window_name : String) (windowOk gladOk : Bool) :
    Except (Int × List Event) (List Event) :=
  if !windowOk then
    Except.error (1, glfw_window_events window_name
      ++ [Event.stdoutLine "Failed to create GLFW window", Event.glfwTerminateCall])
  else if !gladOk then
    Except.error (1, glfw_window_events window_name
      ++ [Event.makeContextCurrent, Event.gladLoadGLLoader,
          Event.stdoutLine "Failed to initialize GLAD"])
  else
    Except.ok (glfw_window_events window_name
      ++ [Event.makeContextCurrent, Event.gladLoadGLLoader,
          Event.viewport 0 0 800 600, Event.setFramebufferSizeCallback])

/-- Embedding of `allocate_gpu_memory(size_t num_bytes)`: generate a buffer,
bind it, allocate `num_bytes` bytes with `glBufferData`, clear it to force the
allocation to materialize, and block on `glFinish`. -/
def allocate_gpu_memory (num_bytes : Nat) : List Event :=
  [Event.genBuffers, Event.bindBuffer, Event.bufferData num_bytes,
   Event.clearBufferData, Event.glFinishCall]

/-- The argv the child branch passes to `execvp`:
`{g_program_path.c_str(), "-m", std::to_string(oscillate_mib).c_str(), NULL}`. -/
def oscillation_child_argv (program_path : String) (oscillate_mib : Nat) : List String :=
  [program_path, "-m", Nat.repr oscillate_mib]

/-- Parent-side trace of one iteration of the `while (true)` loop in
`run_oscillating_allocations`, when `fork` succeeds: the `spawnChild` event
records the fork together with the `execvp(g_program_path, ...)` performed by
the child branch; the parent then sleeps
`oscillate_time_ms + kChildBootWaitExtraMs` ms — an `unsigned + unsigned`
sum, computed mod 2^32 before conversion to `std::chrono::milliseconds` —
sends the child SIGTERM, and sleeps `oscillate_time_ms` ms at the bottom of
the loop. -/
def oscillation_parent_iteration (program_path : String)
    (oscillate_mib oscillate_time_ms : Nat) : List Event :=
  [Event.stdoutLine "Oscillating memory allocating...",
   Event.spawnChild program_path (oscillation_child_argv program_path oscillate_mib),
   Event.sleepMs ((oscillate_time_ms + kChildBootWaitExtraMs) % 2 ^ 32),
   Event.killChild SIGTERM,
   Event.stdoutLine "Oscillating memory freed",
   Event.sleepMs oscillate_time_ms]

/-- Embedding of `run_oscillating_allocations`: the loop body carries no state
from one iteration to the next, so the infinite loop is embedded as the
function giving, for each iteration index, that iteration's trace. -/
def run_oscillating_allocations (program_path : String)
    (oscillate_mib oscillate_time_ms : Nat) : Nat → List Event :=
  fun _ => oscillation_parent_iteration program_path oscillate_mib oscillate_time_ms

/-- Trace, per loop iteration, of a forked child whose `execvp` call fails.
`execvp` only returns on failure; the child branch then falls out of the
`if (child_pid == 0)` statement (the `else` branch is skipped), executes the
bottom-of-loop sleep, and re-enters the loop.  In every later iteration the
failed child calls `fork` itself, receives a nonzero pid, and therefore runs
the parent branch, spawning a further child each cycle. -/
def child_after_exec_failure (program_path : String)
    (oscillate_mib oscillate_time_ms : Nat) : Nat → List Event
  | 0 =>
    [Event.execFailed program_path (oscillation_child_argv program_path oscillate_mib),
     Event.sleepMs oscillate_time_ms]
  | _ + 1 => oscillation_parent_iteration program_path oscillate_mib oscillate_time_ms

/-- Total number of child processes spawned in the first `N` loop iterations
of a child whose `execvp` failed. -/
def totalSpawns (program_path : String) (oscillate_mib oscillate_time_ms N : Nat) : Nat :=
  ((List.range N).map
    (fun n => ((child_after_exec_failure program_path oscillate_mib oscillate_time_ms n).filter
        Event.isSpawn).length)).sum

/-- CLI options as produced by `options.parse`: `help` is whether `-h` (`--help`)
occurred; `mib` is `some v` when `-m` (`--mib`) was supplied with value `v`
(an `unsigned`), `none` when absent (no default is declared for it);
`oscillate_mib` and `oscillate_time_ms` carry their defaults 0 and 500 when
not supplied. -/
structure ParsedOptions where
  help : Bool
  mib : Option Nat
  oscillate_mib : Nat
  oscillate_time_ms : Nat
deriving DecidableEq, Repr

/-- Modelled from the spec: `cxxopts.hpp` (the CLI parsing library) is not
under `src/`.  Per the spec's flag table, `-m` (`--mib`) is `unsigned, required`
with no default, so `parsed["mib"].as<unsigned>()` raises an exception when
the flag was not supplied; `main` does not catch it. -/
def read_mib (mib : Option Nat) : Except Unit Nat :=
  match mib with
  | some v => Except.ok v
  | none => Except.error ()

/-- Modelled from the spec: `cxxopts.hpp` renders `options.help()`; only the
description string passed by `main` is in `src/`, so the generated option
listing is abstracted away and the usage text is represented by that
description. -/
def usage_text : String :=
  "Allocates GPU memory for memory pressure testing.\nDepends on OpenGL and libglfw (sudo apt install libglfw3-dev)"

/-- Result of running `main`: a finite trace ending in `return status` or
`exit(status)`; termination by an uncaught exception (before any further
trace events); or entry into the infinite oscillation loop, carrying the
trace produced before the loop and the per-iteration trace of the loop. -/
inductive MainResult where
  | exit (status : Int) (trace : List Event)
  | uncaughtException (trace : List Event)
  | oscillate (prefixTrace : List Event) (iteration : Nat → List Event)

/-- Exit status, when the run terminates by `return`/`exit`. -/
def MainResult.exitStatus : MainResult → Option Int
  | .exit s _ => some s
  | _ => none

/-- The finite part of the trace: the whole trace of a terminating run, or
the pre-loop trace of an oscillating run. -/
def MainResult.finalTrace : MainResult → List Event
  | .exit _ tr => tr
  | .uncaughtException tr => tr
  | .oscillate pre _ => pre

/-- Whether the run entered the infinite oscillation loop. -/
def MainResult.isOscillating : MainResult → Bool
  | .oscillate _ _ => true
  | _ => false

/-- Per-iteration trace of the oscillation loop (empty for terminating runs). -/
def MainResult.iterationTrace : MainResult → Nat → List Event
  | .oscillate _ f => f
  | _ => fun _ => []

/-- Embedding of `main` from `src/main.cpp`.  `argv0` is `argv[0]`, stored
into `g_program_path` at the top of `main`; `windowOk`/`gladOk` are the
environment-dependent outcomes inside `glfw_init`.  The control flow follows
the source exactly: help check, `mib` read and validation (`<= 12` rejected
with status -1), `mib_size -= 12` and the 32-bit byte-count computation,
oscillation-size validation, `glfw_init`, `allocate_gpu_memory`, then either
`sleep(UINT_MAX)` followed by `glfwTerminate(); return 0;`, or the infinite
oscillation loop. -/
def main_run (argv0 : String) (opts : ParsedOptions) (windowOk gladOk : Bool) :
    MainResult :=
  if opts.help then
    MainResult.exit 0 [Event.stdoutLine usage_text]
  else
    match read_mib opts.mib with
    | Except.error _ => MainResult.uncaughtException []
    | Except.ok mib0 =>
      if mib0 ≤ 12 then
        MainResult.exit (-1) [Event.stderrLine "Allocation must be larger than 12MiB"]
      else
        let mib_size := mib0 - 12
        let bytes := gpu_mem_size_bytes mib_size
        if opts.oscillate_mib ≠ 0 ∧ opts.oscillate_mib ≤ 12 then
          MainResult.exit (-1)
            [Event.stderrLine "Oscillation allocation must be larger than 12MiB"]
        else
          match glfw_init "Allocate GPU memory base" windowOk gladOk with
          | Except.error st_tr => MainResult.exit st_tr.1 st_tr.2
          | Except.ok ev =>
            let ev2 := ev ++ allocate_gpu_memory bytes
            if opts.oscillate_mib = 0 then
              MainResult.exit 0
                (ev2 ++ [Event.sleepSec 4294967295, Event.glfwTerminateCall])
            else
              MainResult.oscillate ev2
                (run_oscillating_allocations argv0 opts.oscillate_mib
                  opts.oscillate_time_ms)

/-- C3: for every requested base size at most 12 MiB (with no help flag), the
program prints an error to the error stream and exits with status -1; the
trace consists of that message only, so no graphics context is created and no
allocation is issued. -/
theorem c3_small_base_rejected (argv0 : String) (m o t : Nat) (w g : Bool)
    (hm : m ≤ 12) :
    main_run argv0 ⟨false, some m, o, t⟩ w g =
      MainResult.exit (-1) [Event.stderrLine "Allocation must be larger than 12MiB"] := by
  simp [main_run, read_mib, hm]

/-- Witness for C3 at the spec's scenario `--mib 10`. -/
theorem c3_small_base_rejected_witness :
    main_run "gpu_mem" ⟨false, some 10, 0, 500⟩ true true =
      MainResult.exit (-1) [Event.stderrLine "Allocation must be larger than 12MiB"] :=
  c3_small_base_rejected "gpu_mem" 10 0 500 true true (by decide)

/-- C9: the help flag takes precedence over all validation: whenever the
parsed options contain `help`, the program prints the usage text and exits 0,
whatever the `-m` value is (absent or arbitrarily small) and whatever the
graphics environment would do; the trace contains nothing but the usage
line, so no context is created and nothing is allocated. -/
theorem c9_help_precedence (argv0 : String) (mib : Option Nat) (o t : Nat)
    (w g : Bool) :
    main_run argv0 ⟨true, mib, o, t⟩ w g =
      MainResult.exit 0 [Event.stdoutLine usage_text] := by
  simp [main_run]

/-- C10: omitting `-m` without `-h` is not a handled validation error: reading
the missing value raises an exception that `main` does not catch, so the run
ends as an uncaught exception with an empty trace — no validation message is
printed, no context is created and no allocation is issued. -/
theorem c10_missing_mib_uncaught (argv0 : String) (o t : Nat) (w g : Bool) :
    main_run argv0 ⟨false, none, o, t⟩ w g = MainResult.uncaughtException [] := by
  simp [main_run, read_mib]

/-- C2 (amended): for every `oscillate_mib > 12` and every parser-accepted
`oscillate_time_ms` (an `unsigned`, so `t < 2^32`), every iteration of the
oscillation loop performs exactly these process-level steps in this order:
spawn exactly one child, sleep `(t + 300) mod 2^32` ms — the sum
`oscillate_time_ms + kChildBootWaitExtraMs` is a 32-bit unsigned addition —
send SIGTERM, sleep `t` ms; this holds for every iteration index, i.e.
forever, with `kChildBootWaitExtraMs = 300` and `SIGTERM = 15`, and the
wrapped sum equals `t + 300` exactly when `t ≤ 4294966995`. -/
theorem c2_oscillation_cycle_mod (p : String) (o t n : Nat)
    (ho : 12 < o) (ht : t < 2 ^ 32) :
    (run_oscillating_allocations p o t n).filter Event.isProcessStep =
      [Event.spawnChild p (oscillation_child_argv p o),
       Event.sleepMs ((t + 300) % 2 ^ 32),
       Event.killChild SIGTERM,
       Event.sleepMs t]
    ∧ ((run_oscillating_allocations p o t n).filter Event.isSpawn).length = 1
    ∧ (t ≤ 4294966995 → (t + 300) % 2 ^ 32 = t + 300)
    ∧ kChildBootWaitExtraMs = 300 ∧ SIGTERM = 15 :=
  ⟨rfl, rfl, fun h => Nat.mod_eq_of_lt (by omega), rfl, rfl⟩

/-- Witness for C2 (amended) at `oscillate_mib = 13`, `oscillate_time_ms = 500`. -/
theorem c2_oscillation_cycle_mod_witness :
    (run_oscillating_allocations "gpu_mem" 13 500 0).filter Event.isProcessStep =
      [Event.spawnChild "gpu_mem" (oscillation_child_argv "gpu_mem" 13),
       Event.sleepMs ((500 + 300) % 2 ^ 32),
       Event.killChild SIGTERM,
       Event.sleepMs 500]
    ∧ ((run_oscillating_allocations "gpu_mem" 13 500 0).filter Event.isSpawn).length = 1
    ∧ (500 ≤ 4294966995 → (500 + 300) % 2 ^ 32 = 500 + 300)
    ∧ kChildBootWaitExtraMs = 300 ∧ SIGTERM = 15 :=
  c2_oscillation_cycle_mod "gpu_mem" 13 500 0 (by decide) (by norm_num)

/-- C2 counterexample: at the parser-accepted `oscillate_time_ms = 4294967295`
(the largest `unsigned`) the parent's post-spawn sleep is 299 ms, because the
`unsigned` sum `oscillate_time_ms + kChildBootWaitExtraMs` wraps mod 2^32 —
not the `4294967295 + 300` ms the claim states. -/
theorem c2_counterexample :
    (run_oscillating_allocations "gpu_mem" 13 4294967295 0).filter Event.isProcessStep =
      [Event.spawnChild "gpu_mem" (oscillation_child_argv "gpu_mem" 13),
       Event.sleepMs 299,
       Event.killChild SIGTERM,
       Event.sleepMs 4294967295]
    ∧ (299 : Nat) ≠ 4294967295 + 300 := by
  refine ⟨by decide, by decide⟩

/-- C6: for every non-zero oscillation size at most 12 (with a valid base
size), the program prints an error to the error stream and exits -1 with no
other trace events, so no graphics context is created; oscillation size 0
passes validation: the same run with `oscillate_mib = 0` completes with
status 0 and prints nothing to the error stream. -/
theorem c6_oscillate_validation (argv0 : String) (m o t : Nat) (w g : Bool)
    (hm : 12 < m) (ho : o ≠ 0) (ho12 : o ≤ 12) :
    main_run argv0 ⟨false, some m, o, t⟩ w g =
      MainResult.exit (-1)
        [Event.stderrLine "Oscillation allocation must be larger than 12MiB"]
    ∧ (main_run argv0 ⟨false, some m, 0, t⟩ true true).exitStatus = some 0
    ∧ (main_run argv0 ⟨false, some m, 0, t⟩ true true).finalTrace.filter
        Event.isStderr = [] := by
  have hm' : ¬ m ≤ 12 := by omega
  refine ⟨?_, ?_, ?_⟩
  · simp [main_run, read_mib, hm', ho, ho12]
  · simp [main_run, read_mib, hm', glfw_init, glfw_window_events,
      allocate_gpu_memory, MainResult.exitStatus]
  · simp [main_run, read_mib, hm', glfw_init, glfw_window_events,
      allocate_gpu_memory, MainResult.finalTrace, Event.isStderr]

/-- Witness for C6 at base size 20 and oscillation size 5. -/
theorem c6_oscillate_validation_witness :
    main_run "gpu_mem" ⟨false, some 20, 5, 500⟩ true true =
      MainResult.exit (-1)
        [Event.stderrLine "Oscillation allocation must be larger than 12MiB"]
    ∧ (main_run "gpu_mem" ⟨false, some 20, 0, 500⟩ true true).exitStatus = some 0
    ∧ (main_run "gpu_mem" ⟨false, some 20, 0, 500⟩ true true).finalTrace.filter
        Event.isStderr = [] :=
  c6_oscillate_validation "gpu_mem" 20 5 500 true true (by decide) (by decide) (by decide)

/-- C5: in every oscillation cycle the child is invoked as the program's own
`argv[0]` (stored in `g_program_path`) with exactly the arguments `-m` and the
decimal rendering of `oscillate_mib`: with a valid base size and
`oscillate_mib > 12`, `main` enters the oscillation loop and every iteration's
only spawn event execs `argv0` with argv `[argv0, "-m", repr oscillate_mib]`. -/
theorem c5_child_invocation (argv0 : String) (m o t n : Nat)
    (hm : 12 < m) (ho : 12 < o) :
    (main_run argv0 ⟨false, some m, o, t⟩ true true).isOscillating = true
    ∧ ((main_run argv0 ⟨false, some m, o, t⟩ true true).iterationTrace n).filter
        Event.isSpawn = [Event.spawnChild argv0 [argv0, "-m", Nat.repr o]] := by
  have hm' : ¬ m ≤ 12 := by omega
  have ho2 : ¬ o ≤ 12 := by omega
  have ho0 : o ≠ 0 := by omega
  constructor
  · simp [main_run, read_mib, hm', ho2, ho0, glfw_init, MainResult.isOscillating]
  · simp [main_run, read_mib, hm', ho2, ho0, glfw_init, MainResult.iterationTrace,
      run_oscillating_allocations, oscillation_parent_iteration,
      oscillation_child_argv, Event.isSpawn]

/-- Witness for C5 at the spec's scenario `--mib 20 --oscillate-mib 15`. -/
theorem c5_child_invocation_witness :
    (main_run "gpu_mem" ⟨false, some 20, 15, 100⟩ true true).isOscillating = true
    ∧ ((main_run "gpu_mem" ⟨false, some 20, 15, 100⟩ true true).iterationTrace 0).filter
        Event.isSpawn = [Event.spawnChild "gpu_mem" ["gpu_mem", "-m", Nat.repr 15]] :=
  c5_child_invocation "gpu_mem" 20 15 100 0 (by decide) (by decide)

/-- C1 (amended): for every accepted base size `m > 12` (an `unsigned`, so
`m < 2^32`) and valid oscillation size, the byte count passed to
`glBufferData` equals `((m - 12) * 1024 * 1024) mod 2^32` — the product is
computed in 32-bit unsigned arithmetic — and this agrees with the exact
product `(m - 12) * 1024 * 1024` exactly when `m ≤ 4107`. -/
theorem c1_alloc_bytes_mod (argv0 : String) (m o t : Nat)
    (hm32 : m < 2 ^ 32) (hm : 12 < m) (ho : o = 0 ∨ 12 < o) :
    (main_run argv0 ⟨false, some m, o, t⟩ true true).finalTrace.filter
        Event.isBufferData = [Event.bufferData (gpu_mem_size_bytes (m - 12))]
    ∧ gpu_mem_size_bytes (m - 12) = ((m - 12) * 1024 * 1024) % 2 ^ 32
    ∧ (m ≤ 4107 → gpu_mem_size_bytes (m - 12) = (m - 12) * 1024 * 1024) := by
  have hm' : ¬ m ≤ 12 := by omega
  refine ⟨?_, ?_, ?_⟩
  · rcases ho with h0 | h12
    · subst h0
      simp [main_run, read_mib, hm', glfw_init, glfw_window_events,
        allocate_gpu_memory, MainResult.finalTrace, Event.isBufferData]
    · have ho2 : ¬ o ≤ 12 := by omega
      have ho0 : o ≠ 0 := by omega
      simp [main_run, read_mib, hm', ho2, ho0, glfw_init, glfw_window_events,
        allocate_gpu_memory, MainResult.finalTrace, Event.isBufferData]
  · have h : 1024 * 1024 * (m - 12) = (m - 12) * 1024 * 1024 := by ring
    rw [gpu_mem_size_bytes, h]
  · intro hle
    rw [gpu_mem_size_bytes]
    have h1 : m - 12 ≤ 4095 := by omega
    have h2 : 1024 * 1024 * (m - 12) < 2 ^ 32 := by
      calc 1024 * 1024 * (m - 12) ≤ 1024 * 1024 * 4095 := Nat.mul_le_mul_left _ h1
        _ < 2 ^ 32 := by norm_num
    rw [Nat.mod_eq_of_lt h2]
    ring

/-- Witness for C1 (amended) at the spec's scenario `--mib 20`:
the allocation call receives `(20 - 12) * 1024 * 1024 = 8` MiB. -/
theorem c1_alloc_bytes_mod_witness :
    (main_run "gpu_mem" ⟨false, some 20, 0, 500⟩ true true).finalTrace.filter
        Event.isBufferData = [Event.bufferData (gpu_mem_size_bytes (20 - 12))]
    ∧ gpu_mem_size_bytes (20 - 12) = ((20 - 12) * 1024 * 1024) % 2 ^ 32
    ∧ (20 ≤ 4107 → gpu_mem_size_bytes (20 - 12) = (20 - 12) * 1024 * 1024) :=
  c1_alloc_bytes_mod "gpu_mem" 20 0 500 (by norm_num) (by decide) (Or.inl rfl)

/-- C1 counterexample: at `--mib 4108` the byte count actually passed to the
allocation call is 0, not `(4108 - 12) * 1024 * 1024 = 4294967296`: the
product wraps in 32-bit unsigned arithmetic, so the claimed exact arithmetic
fails for this parser-accepted value. -/
theorem c1_counterexample :
    (main_run "gpu_mem" ⟨false, some 4108, 0, 500⟩ true true).finalTrace.filter
        Event.isBufferData = [Event.bufferData 0]
    ∧ (4108 - 12) * 1024 * 1024 = 4294967296
    ∧ ¬ (main_run "gpu_mem" ⟨false, some 4108, 0, 500⟩ true true).finalTrace.filter
          Event.isBufferData = [Event.bufferData ((4108 - 12) * 1024 * 1024)] := by
  refine ⟨by decide, by norm_num, by decide⟩

/-- C4 (amended): with `oscillate_mib` at its default 0 and a valid base size,
the run performs exactly one GPU allocation and spawns no child processes,
then sleeps 4294967295 seconds (the largest `unsigned`, about 136 years);
after that sleep it exits on its own with status 0 rather than blocking
strictly forever. -/
theorem c4_single_allocation_then_sleep (argv0 : String) (m t : Nat)
    (hm : 12 < m) :
    (main_run argv0 ⟨false, some m, default_oscillate_mib, t⟩ true true).exitStatus
        = some 0
    ∧ ((main_run argv0 ⟨false, some m, default_oscillate_mib, t⟩ true true).finalTrace.filter
        Event.isBufferData).length = 1
    ∧ (main_run argv0 ⟨false, some m, default_oscillate_mib, t⟩ true true).finalTrace.filter
        Event.isSpawn = []
    ∧ Event.sleepSec 4294967295 ∈
        (main_run argv0 ⟨false, some m, default_oscillate_mib, t⟩ true true).finalTrace := by
  have hm' : ¬ m ≤ 12 := by omega
  refine ⟨?_, ?_, ?_, ?_⟩ <;>
    simp [main_run, read_mib, hm', default_oscillate_mib, glfw_init,
      glfw_window_events, allocate_gpu_memory, MainResult.exitStatus,
      MainResult.finalTrace, Event.isBufferData, Event.isSpawn]

/-- Witness for C4 (amended) at the spec's scenario `--mib 20`. -/
theorem c4_single_allocation_then_sleep_witness :
    (main_run "gpu_mem" ⟨false, some 20, default_oscillate_mib, 500⟩ true true).exitStatus
        = some 0
    ∧ ((main_run "gpu_mem" ⟨false, some 20, default_oscillate_mib, 500⟩ true true).finalTrace.filter
        Event.isBufferData).length = 1
    ∧ (main_run "gpu_mem" ⟨false, some 20, default_oscillate_mib, 500⟩ true true).finalTrace.filter
        Event.isSpawn = []
    ∧ Event.sleepSec 4294967295 ∈
        (main_run "gpu_mem" ⟨false, some 20, default_oscillate_mib, 500⟩ true true).finalTrace :=
  c4_single_allocation_then_sleep "gpu_mem" 20 500 (by decide)

/-- C4 counterexample: at `--mib 20` with no oscillation the run terminates by
itself with exit status 0 (after a `sleep` of 4294967295 seconds, an event
visible in its trace), refuting "blocks indefinitely, never exiting on its
own". -/
theorem c4_counterexample :
    (main_run "gpu_mem" ⟨false, some 20, 0, 500⟩ true true).exitStatus = some 0
    ∧ Event.sleepSec 4294967295 ∈
        (main_run "gpu_mem" ⟨false, some 20, 0, 500⟩ true true).finalTrace := by
  refine ⟨by decide, by decide⟩

/-- C7: window-creation failure logs a message and exits with status 1 with no
retry (a single `createWindow` attempt in the trace); GLAD-loader failure
likewise logs and exits 1; the help flag prints usage and exits 0; a
validation failure exits -1. -/
theorem c7_failure_exit_codes (argv0 : String) (m m2 o t : Nat)
    (mib : Option Nat) (w g : Bool)
    (hm : 12 < m) (ho : o = 0 ∨ 12 < o) (hm2 : m2 ≤ 12) :
    main_run argv0 ⟨false, some m, o, t⟩ false g =
      MainResult.exit 1 (glfw_window_events "Allocate GPU memory base"
        ++ [Event.stdoutLine "Failed to create GLFW window", Event.glfwTerminateCall])
    ∧ main_run argv0 ⟨false, some m, o, t⟩ true false =
      MainResult.exit 1 (glfw_window_events "Allocate GPU memory base"
        ++ [Event.makeContextCurrent, Event.gladLoadGLLoader,
            Event.stdoutLine "Failed to initialize GLAD"])
    ∧ main_run argv0 ⟨true, mib, o, t⟩ w g =
      MainResult.exit 0 [Event.stdoutLine usage_text]
    ∧ main_run argv0 ⟨false, some m2, o, t⟩ w g =
      MainResult.exit (-1) [Event.stderrLine "Allocation must be larger than 12MiB"] := by
  have hm' : ¬ m ≤ 12 := by omega
  refine ⟨?_, ?_, ?_, ?_⟩
  · rcases ho with h0 | h12
    · subst h0
      simp [main_run, read_mib, hm', glfw_init]
    · have ho2 : ¬ o ≤ 12 := by omega
      simp [main_run, read_mib, hm', ho2, glfw_init]
  · rcases ho with h0 | h12
    · subst h0
      simp [main_run, read_mib, hm', glfw_init]
    · have ho2 : ¬ o ≤ 12 := by omega
      simp [main_run, read_mib, hm', ho2, glfw_init]
  · simp [main_run]
  · simp [main_run, read_mib, hm2]

/-- Witness for C7 at base size 20 (valid), base size 10 (invalid), no
oscillation, help run with `-m` absent. -/
theorem c7_failure_exit_codes_witness :
    main_run "gpu_mem" ⟨false, some 20, 0, 500⟩ false true =
      MainResult.exit 1 (glfw_window_events "Allocate GPU memory base"
        ++ [Event.stdoutLine "Failed to create GLFW window", Event.glfwTerminateCall])
    ∧ main_run "gpu_mem" ⟨false, some 20, 0, 500⟩ true false =
      MainResult.exit 1 (glfw_window_events "Allocate GPU memory base"
        ++ [Event.makeContextCurrent, Event.gladLoadGLLoader,
            Event.stdoutLine "Failed to initialize GLAD"])
    ∧ main_run "gpu_mem" ⟨true, none, 0, 500⟩ true true =
      MainResult.exit 0 [Event.stdoutLine usage_text]
    ∧ main_run "gpu_mem" ⟨false, some 10, 0, 500⟩ true true =
      MainResult.exit (-1) [Event.stderrLine "Allocation must be larger than 12MiB"] :=
  c7_failure_exit_codes "gpu_mem" 20 10 0 500 none true true
    (by decide) (Or.inl rfl) (by decide)

/-- C8: a forked child whose `execvp` fails does not exit: its first iteration
ends with the bottom-of-loop sleep, every later iteration is exactly a parent
oscillation iteration (so it forks one further child per cycle), every
iteration's trace is nonempty, and after `N + 1` iterations it has spawned
`N` further children — unbounded as `N` grows. -/
theorem c8_exec_failure_fallthrough (p : String) (o t n k N : Nat)
    (hn : 1 ≤ n) :
    child_after_exec_failure p o t 0 =
      [Event.execFailed p (oscillation_child_argv p o), Event.sleepMs t]
    ∧ child_after_exec_failure p o t n = oscillation_parent_iteration p o t
    ∧ child_after_exec_failure p o t k ≠ []
    ∧ ((child_after_exec_failure p o t n).filter Event.isSpawn).length = 1
    ∧ totalSpawns p o t (N + 1) = N := by
  refine ⟨rfl, ?_, ?_, ?_, ?_⟩
  · cases n with
    | zero => omega
    | succ j => rfl
  · cases k with
    | zero => simp [child_after_exec_failure]
    | succ j => simp [child_after_exec_failure, oscillation_parent_iteration]
  · cases n with
    | zero => omega
    | succ j => rfl
  · induction N with
    | zero => rfl
    | succ j ih =>
      rw [totalSpawns] at ih ⊢
      rw [List.range_succ, List.map_append, List.sum_append, ih]
      rfl

/-- Witness for C8 at iteration 1, checking 1 further child after 2 iterations. -/
theorem c8_exec_failure_fallthrough_witness :
    child_after_exec_failure "gpu_mem" 13 500 0 =
      [Event.execFailed "gpu_mem" (oscillation_child_argv "gpu_mem" 13),
       Event.sleepMs 500]
    ∧ child_after_exec_failure "gpu_mem" 13 500 1 =
        oscillation_parent_iteration "gpu_mem" 13 500
    ∧ child_after_exec_failure "gpu_mem" 13 500 2 ≠ []
    ∧ ((child_after_exec_failure "gpu_mem" 13 500 1).filter Event.isSpawn).length = 1
    ∧ totalSpawns "gpu_mem" 13 500 (1 + 1) = 1 :=
  c8_exec_failure_fallthrough "gpu_mem" 13 500 1 2 1 (by decide)
